import Mathlib

/-!
Verification of the 2D light-beam propagation engine
(`src/engine/light/light_beam.py`, `light_interactors.py`,
`light_projector.py`) against its natural-language specification.

Modelling conventions:
* Python floats are modelled as exact rationals (ℚ).  `float.__truediv__`
  raises `ZeroDivisionError` on a zero denominator, so every code path that
  divides is modelled in the `Except PyError` monad with an explicit
  denominator test.
* pyglet's `Vec2.mag` is `√(x² + y²)`; over ℚ we use `ratSqrt`, a
  kernel-evaluable definition proved equal to Mathlib's `Rat.sqrt`, which is
  exact on perfect squares.  Every concrete input evaluated in this file has
  a perfect-square magnitude, so the model agrees with the source there.
* Python `in` on tuples of `LightBeam` compares by object identity
  (`LightBeam` defines no `__eq__`); the children bookkeeping is therefore
  modelled over object ids (`Nat`).
-/

set_option maxRecDepth 100000

namespace LightEngine

/-- Exceptions the modelled Python code can raise. -/
inductive PyError where
  | typeError
  | zeroDivisionError
  | notImplementedError
  | valueError
  | attributeError
deriving DecidableEq

deriving instance DecidableEq for Except

/-- pyglet `Vec2`: an immutable pair of coordinates, modelled over ℚ. -/
structure Vec2 where
  x : ℚ
  y : ℚ
deriving DecidableEq

def Vec2.add (a b : Vec2) : Vec2 := ⟨a.x + b.x, a.y + b.y⟩

instance : Add Vec2 := ⟨Vec2.add⟩

def Vec2.sub (a b : Vec2) : Vec2 := ⟨a.x - b.x, a.y - b.y⟩

instance : Sub Vec2 := ⟨Vec2.sub⟩

/-- pyglet `Vec2.__mul__` with a scalar. -/
def Vec2.smul (a : Vec2) (s : ℚ) : Vec2 := ⟨a.x * s, a.y * s⟩

/-- pyglet `Vec2.__truediv__` with a scalar (used only with the literal 2). -/
def Vec2.div (a : Vec2) (s : ℚ) : Vec2 := ⟨a.x / s, a.y / s⟩

def Vec2.dot (a b : Vec2) : ℚ := a.x * b.x + a.y * b.y

def Vec2.magSq (v : Vec2) : ℚ := v.x * v.x + v.y * v.y

/-- Floor square root on ℕ by structural recursion (so that the kernel can
evaluate it on concrete inputs); equal to `Nat.sqrt`, see `natSqrtLin_eq`. -/
def natSqrtLin : Nat → Nat
  | 0 => 0
  | n + 1 =>
    let r := natSqrtLin n
    if (r + 1) * (r + 1) ≤ n + 1 then r + 1 else r

theorem natSqrtLin_eq (n : Nat) : natSqrtLin n = Nat.sqrt n := by
  induction n with
  | zero => simp [natSqrtLin]
  | succ n ih =>
    rw [natSqrtLin, ih]
    split
    · rename_i h
      exact Nat.eq_sqrt.mpr ⟨h, by nlinarith [Nat.lt_succ_sqrt n]⟩
    · rename_i h
      exact Nat.eq_sqrt.mpr ⟨le_trans (Nat.sqrt_le n) (Nat.le_succ n), by omega⟩

/-- Floor square root on ℤ (zero on negatives); equal to `Int.sqrt`. -/
def intSqrtLin (z : Int) : Int := Int.ofNat (natSqrtLin z.toNat)

theorem intSqrtLin_eq (z : Int) : intSqrtLin z = Int.sqrt z := by
  simp [intSqrtLin, Int.sqrt, natSqrtLin_eq]

/-- Floor-style square root on ℚ, applied to numerator and denominator;
equal to Mathlib's `Rat.sqrt` (see `ratSqrt_eq`) but kernel-evaluable.
Exact on perfect squares, which covers every magnitude this development
evaluates concretely. -/
def ratSqrt (q : ℚ) : ℚ := mkRat (intSqrtLin q.num) (natSqrtLin q.den)

theorem ratSqrt_eq (q : ℚ) : ratSqrt q = Rat.sqrt q := by
  simp [ratSqrt, Rat.sqrt, intSqrtLin_eq, natSqrtLin_eq]

/-- pyglet `Vec2.__abs__` is `√(x² + y²)`: modelled with the exact rational
square root, which agrees with the float value on the perfect squares this
file evaluates. -/
def Vec2.mag (v : Vec2) : ℚ := ratSqrt v.magSq

/-- pyglet `Vec2.normalize`: divides by the magnitude, returning the zero
vector unchanged (`d = abs(self); if d: return Vec2(x/d, y/d); return self`). -/
def Vec2.normalize (v : Vec2) : Vec2 :=
  if v.mag = 0 then v else ⟨v.x / v.mag, v.y / v.mag⟩

/-- pyglet `Vec2.rotate(pi/2)`: (x, y) ↦ (-y, x), exactly. -/
def Vec2.rot90 (v : Vec2) : Vec2 := ⟨-v.y, v.x⟩

/-- pyglet `Vec2.rotate(-pi/2)`: (x, y) ↦ (y, -x), exactly. -/
def Vec2.rotNeg90 (v : Vec2) : Vec2 := ⟨v.y, -v.x⟩

/-- pyglet `v.rotate(d.heading)`: rotation by the polar angle of `d`, i.e.
by the angle with cosine `d.x/|d|` and sine `d.y/|d|` (identity when `d` is
the zero vector, whose heading is 0).  Exact whenever `|d|` is rational. -/
def Vec2.rotateByHeading (v d : Vec2) : Vec2 :=
  let m := d.mag
  if m = 0 then v
  else ⟨(v.x * d.x - v.y * d.y) / m, (v.x * d.y + v.y * d.x) / m⟩

/-- Function `_get_intersection` (light_beam.py lines 11-30): ray-ray
intersection.  Returns `none` when the direction dot product reaches ±1 or
the `tb` denominator vanishes.  In the `d2.x == 0` branch the source divides
by `d1.x` unguarded, which raises `ZeroDivisionError` when `d1.x == 0`. -/
def getIntersection (o1 d1 o2 d2 : Vec2) : Except PyError (Option Vec2) :=
  let dot := d1.dot d2
  if 1 ≤ dot ∨ dot ≤ -1 then Except.ok none
  else if d2.x = 0 then
    if d1.x = 0 then Except.error PyError.zeroDivisionError
    else
      let t1 := (o2.x - o1.x) / d1.x
      Except.ok (some (o1 + d1.smul t1))
  else
    let ta := (o1.y - o2.y) - (o1.x - o2.x) * (d2.y / d2.x)
    let tb := d1.x * (d2.y / d2.x) - d1.y
    if tb = 0 then Except.ok none
    else
      let t1 := ta / tb
      Except.ok (some (o1 + d1.smul t1))

/-- Shared tail of `_get_segment_intersection` (lines 55-66): the parameter
range checks once `t1` and `t2` are solved. -/
def segmentIntersectionTail (s1 e1 s2 e2 d1 : Vec2) (t1 t2 : ℚ) :
    Except PyError (Option Vec2) :=
  if t1 < 0 ∨ t2 < 0 then Except.ok none
  else
    let v1 := e1 - s1
    let v2 := e2 - s2
    if t1 ^ 2 > v1.dot v1 ∨ t2 ^ 2 > v2.dot v2 then Except.ok none
    else Except.ok (some (s1 + d1.smul t1))

/-- Function `_get_segment_intersection` (light_beam.py lines 33-66).
The optional direction arguments default to the normalised segment vectors
(`d1 or (e1 - s1).normalize()`; a passed `Vec2` is always truthy).  In the
`d2.x == 0` branch the source divides by `d1.x` and then by `d2.y`
unguarded; each zero denominator raises `ZeroDivisionError`, in that
order. -/
def getSegmentIntersection (s1 e1 s2 e2 : Vec2) (d1? d2? : Option Vec2) :
    Except PyError (Option Vec2) :=
  let d1 := d1?.getD (e1 - s1).normalize
  let d2 := d2?.getD (e2 - s2).normalize
  let dot := d1.dot d2
  if 1 ≤ dot ∨ dot ≤ -1 then Except.ok none
  else if d2.x = 0 then
    if d1.x = 0 then Except.error PyError.zeroDivisionError
    else
      let t1 := (s2.x - s1.x) / d1.x
      if d2.y = 0 then Except.error PyError.zeroDivisionError
      else
        let t2 := ((s1.y - s2.y) + d1.y * t1) / d2.y
        segmentIntersectionTail s1 e1 s2 e2 d1 t1 t2
  else
    let ta := (s1.y - s2.y) - (s1.x - s2.x) * (d2.y / d2.x)
    let tb := d1.x * (d2.y / d2.x) - d1.y
    if tb = 0 then Except.ok none
    else
      let t1 := ta / tb
      let t2 := ((s1.x - s2.x) + t1 * d1.x) / d2.x
      segmentIntersectionTail s1 e1 s2 e2 d1 t1 t2

/-- Class `LightEdge` (light_beam.py lines 69-86): one lateral boundary of a
beam. -/
structure LightEdge where
  source : Vec2
  sink : Vec2
  direction : Vec2
  normal : Vec2
  strength : ℚ
  length : ℚ
  bound : ℚ
deriving DecidableEq

/-- Constructor `LightEdge.__init__` (lines 71-86): stores the six arguments
and computes `normal = direction.rotate(pi/2).normalize()`.  It takes exactly
six positional arguments after `self`. -/
def mkLightEdge (source sink direction : Vec2) (strength length bound : ℚ) :
    LightEdge :=
  ⟨source, sink, direction, direction.rot90.normalize, strength, length, bound⟩

/-- Texture stand-in: only `height` is consulted by the modelled code
(`generate_initial_beam`). -/
structure Texture where
  height : Nat
deriving DecidableEq

/-- Class `LightBeam` (light_beam.py lines 89-127).  The interaction-manager
back-reference is omitted (propagation always receives the manager as an
argument); the identity-based `_children` bookkeeping is modelled separately
over object ids (see `addChild`). -/
structure LightBeam where
  image : Texture
  components : Bool × Bool × Bool
  left : LightEdge
  right : LightEdge
  origin : Vec2
  direction : Vec2
  width : ℚ
  normal : Vec2
  intersection : Option Vec2
deriving DecidableEq

/-- Constructor `LightBeam.__init__` (lines 91-127): computes
`width = (left.source - right.source).mag`,
`normal = normal or Vec2(-direction.y, direction.x)` and
`intersection = intersection or _get_intersection(left.source,
left.direction, right.source, right.direction)`; the latter call can raise,
hence the `Except` result. -/
def mkLightBeam (image : Texture) (components : Bool × Bool × Bool)
    (left right : LightEdge) (origin direction : Vec2)
    (intersection? normal? : Option Vec2) : Except PyError LightBeam :=
  let width := (left.source - right.source).mag
  let normal := match normal? with
    | some n => n
    | none => ⟨-direction.y, direction.x⟩
  match intersection? with
  | some i =>
      Except.ok ⟨image, components, left, right, origin, direction, width, normal, some i⟩
  | none => do
      let inter ← getIntersection left.source left.direction right.source right.direction
      Except.ok ⟨image, components, left, right, origin, direction, width, normal, inter⟩

/-- Method `LightBeam.is_point_in_beam` (light_beam.py lines 447-474).
Note line 464: the far end of the right edge is computed with
`self._left_edge.length`, the LEFT edge's length. -/
def LightBeam.isPointInBeam (b : LightBeam) (point : Vec2) : Bool :=
  let toPoint := point - b.origin
  if toPoint.dot b.direction ≤ 0 then false
  else
    let leftToPoint := point - b.left.source
    let inFrontOfLeft : Bool := decide (b.left.normal.dot leftToPoint < 0)
    let rightToPoint := point - b.right.source
    let inFrontOfRight : Bool := decide (b.right.normal.dot rightToPoint > 0)
    if inFrontOfLeft ≠ inFrontOfRight then false
    else
      let endLeft := b.left.source + b.left.direction.smul b.left.length
      let endRight := b.right.source + b.right.direction.smul b.left.length
      let endPos := (endLeft + endRight).div 2
      let isEndFlipped : Bool := decide (b.left.normal.dot endPos > 0)
      let endDir := (if isEndFlipped then (endLeft - endRight).rotNeg90
        else (endLeft - endRight).rot90).normalize
      let endToPoint := point - endPos
      if endDir.dot endToPoint ≤ 0 then false
      else true

/-- The far-end-cap computation as claim C7 states it, for comparison with
`LightBeam.isPointInBeam`: identical except that the right edge is truncated
by its OWN length (`b.right.length`) rather than by the left edge's. -/
def LightBeam.isPointInBeamClaimed (b : LightBeam) (point : Vec2) : Bool :=
  let toPoint := point - b.origin
  if toPoint.dot b.direction ≤ 0 then false
  else
    let leftToPoint := point - b.left.source
    let inFrontOfLeft : Bool := decide (b.left.normal.dot leftToPoint < 0)
    let rightToPoint := point - b.right.source
    let inFrontOfRight : Bool := decide (b.right.normal.dot rightToPoint > 0)
    if inFrontOfLeft ≠ inFrontOfRight then false
    else
      let endLeft := b.left.source + b.left.direction.smul b.left.length
      let endRight := b.right.source + b.right.direction.smul b.right.length
      let endPos := (endLeft + endRight).div 2
      let isEndFlipped : Bool := decide (b.left.normal.dot endPos > 0)
      let endDir := (if isEndFlipped then (endLeft - endRight).rotNeg90
        else (endLeft - endRight).rot90).normalize
      let endToPoint := point - endPos
      if endDir.dot endToPoint ≤ 0 then false
      else true

/-- Method `LightBeam.is_edge_in_beam` (light_beam.py lines 476-523).  The
three `_get_segment_intersection` calls can raise, hence the `Except`
result.  The first two pass explicit directions; the end-cap test lets `d2`
default. -/
def LightBeam.isEdgeInBeam (b : LightBeam) (start stop : Vec2) :
    Except PyError Bool := do
  let toStart := start - b.origin
  let toEnd := stop - b.origin
  if toStart.dot b.direction ≤ 0 ∧ toEnd.dot b.direction ≤ 0 then
    return false
  let rightToStart := start - b.right.source
  let rightToEnd := stop - b.right.source
  let leftToStart := start - b.left.source
  let leftToEnd := stop - b.left.source
  if decide (b.right.normal.dot rightToStart > 0) =
      decide (b.left.normal.dot leftToStart < 0) then
    return true
  if decide (b.right.normal.dot rightToEnd > 0) =
      decide (b.left.normal.dot leftToEnd < 0) then
    return true
  let leftToBeamEnd := b.left.source + b.left.direction.smul b.left.length
  let rightToBeamEnd := b.right.source + b.right.direction.smul b.right.length
  let edgeDir := (stop - start).normalize
  let hitLeft ← getSegmentIntersection start stop b.left.source leftToBeamEnd
    (some edgeDir) (some b.left.direction)
  if hitLeft.isSome then
    return true
  let hitRight ← getSegmentIntersection start stop b.right.source rightToBeamEnd
    (some edgeDir) (some b.right.direction)
  if hitRight.isSome then
    return true
  let hitEnd ← getSegmentIntersection start stop rightToBeamEnd leftToBeamEnd
    (some edgeDir) none
  if hitEnd.isSome then
    return true
  return false

/-- Class `LightInteractor` (light_interactors.py lines 55-169): a polygonal
obstacle.  The weak incoming/outgoing beam sets are render-cleanup
bookkeeping and are not modelled. -/
structure LightInteractor where
  position : Vec2
  direction : Vec2
  bounds : List Vec2
  normals : List Vec2
  components : Bool × Bool × Bool
deriving DecidableEq

/-- Constructor `LightInteractor.__init__` (lines 57-84): stores position,
direction, bounds and components and computes one normal per bound as
`(bounds[(i + 1) % len(bounds)] - bounds[i]).rotate(pi / 2).normalize()`.
No validation of the vertex count (or anything else) is performed and no
statement in the body can raise, so construction always succeeds; the
`Except` result records that. -/
def mkLightInteractor (position direction : Vec2) (boundingPoints : List Vec2)
    (components : Bool × Bool × Bool) : Except PyError LightInteractor :=
  let n := boundingPoints.length
  let normals := (List.range n).map (fun i =>
    ((boundingPoints.getD ((i + 1) % n) ⟨0, 0⟩) -
      (boundingPoints.getD i ⟨0, 0⟩)).rot90.normalize)
  Except.ok ⟨position, direction, boundingPoints, normals, components⟩

/-- Constructor `LightFilter.__init__` (light_interactors.py lines 174-188):
builds the four rectangle corners from width and height and delegates to
`LightInteractor.__init__`. -/
def mkLightFilter (position direction : Vec2) (width height : ℚ)
    (components : Bool × Bool × Bool) : Except PyError LightInteractor :=
  mkLightInteractor position direction
    [⟨-width / 2, -height / 2⟩, ⟨-width / 2, height / 2⟩,
     ⟨width / 2, height / 2⟩, ⟨width / 2, -height / 2⟩]
    components

/-- Method `LightInteractor.get_edge_adjusted` (lines 141-146): the edge from
`bounds[index]` to `bounds[(index + 1) % len(bounds)]`, rotated by the
interactor's heading and translated to its position, with the matching
rotated normal. -/
def LightInteractor.getEdgeAdjusted (it : LightInteractor) (index : Nat) :
    Vec2 × Vec2 × Vec2 :=
  let n := it.bounds.length
  let start := it.position + (it.bounds.getD index ⟨0, 0⟩).rotateByHeading it.direction
  let stop := it.position +
    (it.bounds.getD ((index + 1) % n) ⟨0, 0⟩).rotateByHeading it.direction
  let normal := (it.normals.getD index ⟨0, 0⟩).rotateByHeading it.direction
  (start, stop, normal)

/-- Component-wise AND of a beam's and an interactor's colour channels
(`tuple(a and b for a, b in zip(beam.components, self._components))`,
light_interactors.py line 191). -/
def componentMix (it : LightInteractor) (beam : LightBeam) :
    Bool × Bool × Bool :=
  (beam.components.1 && it.components.1,
   beam.components.2.1 && it.components.2.1,
   beam.components.2.2 && it.components.2.2)

/-- Method `LightFilter.calculate_interaction` (light_interactors.py lines
190-234).  When no colour channel survives the mix, returns no children
(line 194).  Otherwise the code computes the remaining strengths and the
truncation points and then calls `LightEdge(beam.left.direction, left_pos,
left_strength, left_strength, beam.left.bound)` — FIVE positional arguments,
while `LightEdge.__init__` (light_beam.py line 71) requires SIX (source,
sink, direction, strength, length, bound).  Python raises `TypeError` at
that call, before any edge or child beam is built, so the remainder of the
method (lines 210-234) is unreachable.  The struck-edge parameter is not
used before the failing call. -/
def calculateInteractionFilter (it : LightInteractor) (beam : LightBeam) :
    Except PyError (List LightBeam) :=
  let mix := componentMix it beam
  if ¬(mix.1 || mix.2.1 || mix.2.2) then Except.ok []
  else
    let leftStrength := beam.left.strength - beam.left.length
    let rightStrength := beam.right.strength - beam.right.length
    let leftPos := beam.left.source + beam.left.direction.smul beam.left.length
    let rightPos := beam.right.source + beam.right.direction.smul beam.right.length
    Except.error PyError.typeError

/-- Method `LightInteractor.calculate_interaction` (lines 148-157) raises
`NotImplementedError`; `LightConcave`, `LightConvex` and `LightPrism`
(lines 237-246) inherit it unchanged. -/
def calculateInteractionBase (_it : LightInteractor) (_beam : LightBeam) :
    Except PyError (List LightBeam) :=
  Except.error PyError.notImplementedError

/-- Class `LightInteractorManager` (light_interactors.py lines 11-52): the
active and inactive obstacle sets.  Python iterates `tuple(set)` in an
unspecified order; the sets are modelled as lists whose order stands for
that iteration order. -/
structure LightInteractorManager where
  activeInteractors : List LightInteractor
  inactiveInteractors : List LightInteractor
deriving DecidableEq

/-- Method `LightInteractorManager.calculate_intersecting_edges` (lines
17-27): for every edge of every active interactor that passes
`beam.is_edge_in_beam`, collect `(start, end, Vec2(normal.y, -normal.x),
interactor)`. -/
def LightInteractorManager.calculateIntersectingEdges
    (mgr : LightInteractorManager) (beam : LightBeam) :
    Except PyError (List (Vec2 × Vec2 × Vec2 × LightInteractor)) := do
  let mut intersectingEdges : List (Vec2 × Vec2 × Vec2 × LightInteractor) := []
  for interactor in mgr.activeInteractors do
    for i in List.range interactor.bounds.length do
      let (start, stop, normal) := interactor.getEdgeAdjusted i
      let isIntersecting ← beam.isEdgeInBeam start stop
      if isIntersecting then
        intersectingEdges :=
          intersectingEdges ++ [(start, stop, ⟨normal.y, -normal.x⟩, interactor)]
  return intersectingEdges

/-- Shape of the sweep continuation: the body of `LightBeam.propagate_beam`
after the fast-path test (light_beam.py lines 194-440). -/
abbrev SweepFn :=
  LightBeam → LightInteractorManager →
    List (Vec2 × Vec2 × Vec2 × LightInteractor) → Except PyError (List LightBeam)

/-- Method `LightBeam.propagate_beam`, entry and fast path (light_beam.py
lines 186-192): `propagate_kill` (line 187) clears the identity-based
children bookkeeping (see `addChild`) and touches no geometric field; then
the intersecting edges are collected and, if there are none, the beam itself
is returned as the single result (`return self,`).  The sweep that handles a
non-empty edge list (lines 194-440) is supplied as the continuation
`sweep`; the fast-path theorems below hold for every continuation, which
shows the sweep (and with it any recursion) is not entered. -/
def LightBeam.propagateBeam (sweep : SweepFn) (b : LightBeam)
    (mgr : LightInteractorManager) : Except PyError (List LightBeam) := do
  let intersectingEdges ← mgr.calculateIntersectingEdges b
  if intersectingEdges = [] then
    return [b]
  sweep b mgr intersectingEdges

/-- Method `LightBeam.add_child` (light_beam.py lines 135-139): appends
unless already present.  Python `in` on the children tuple uses object
identity (`LightBeam` defines no `__eq__`), modelled as equality of object
ids. -/
def addChild (children : List Nat) (child : Nat) : List Nat :=
  if child ∈ children then children else children ++ [child]

/-- Method `LightBeam.extend_children` (lines 141-143): `add_child` on each
element in order. -/
def extendChildren (children : List Nat) (newChildren : List Nat) : List Nat :=
  newChildren.foldl addChild children

/-- One mutation of a beam's children tuple: an `add_child` call or an
`extend_children` call. -/
inductive ChildOp where
  | add : Nat → ChildOp
  | extend : List Nat → ChildOp
deriving DecidableEq

/-- Apply a sequence of children-tuple mutations in order. -/
def applyChildOps (ops : List ChildOp) (children : List Nat) : List Nat :=
  ops.foldl (fun cs op => match op with
    | ChildOp.add c => addChild cs c
    | ChildOp.extend cs2 => extendChildren cs cs2) children

/-- Class `LightProjector` (light_projector.py lines 13-156).  The scene
back-reference is consulted only for its `interactor_manager`, so `parent`
is modelled as that manager directly.  `rebuilds` is not a source field: it
counts `update_beams` invocations, the observation (a rebuild counter) the
spec's no-op-setter property names. -/
structure LightProjector where
  image : Texture
  components : Bool × Bool × Bool
  strength : ℚ
  origin : Vec2
  direction : Vec2
  childrenBeams : List LightBeam
  parent : Option LightInteractorManager
  isOn : Bool
  rebuilds : Nat
deriving DecidableEq

/-- Method `LightProjector.generate_initial_beam` (lines 110-156): raises
`ValueError` when unparented, otherwise builds the root beam from the
projector's origin, direction, strength and image (`output_width = 14`,
`h_width = 14 // 2`, `h_img_height = image.height // 2`). -/
def LightProjector.generateInitialBeam (p : LightProjector) :
    Except PyError LightBeam :=
  match p.parent with
  | none => Except.error PyError.valueError
  | some _mgr =>
    let hWidth : ℚ := 7
    let hImgHeight : ℚ := (p.image.height / 2 : Nat)
    let rotatedDir := p.direction.rot90.normalize
    let imageLocation := p.origin + p.direction.smul p.strength
    let imageLeftLocation := imageLocation + rotatedDir.smul hImgHeight
    let imageRightLocation := imageLocation - rotatedDir.smul hImgHeight
    let projLeftLocation := p.origin + rotatedDir.smul hWidth
    let projRightLocation := p.origin - rotatedDir.smul hWidth
    let leftDir := (imageLeftLocation - projLeftLocation).normalize
    let leftStrength := (imageLeftLocation - projLeftLocation).mag
    let rightDir := (imageRightLocation - projRightLocation).normalize
    let rightStrength := (imageRightLocation - projRightLocation).mag
    let leftEdge := mkLightEdge projLeftLocation imageLeftLocation leftDir
      leftStrength leftStrength 1
    let rightEdge := mkLightEdge projRightLocation imageRightLocation rightDir
      rightStrength rightStrength 0
    mkLightBeam p.image p.components leftEdge rightEdge p.origin p.direction
      none none

/-- Method `LightProjector.update_beams` (lines 30-35): kills the current
children (identity bookkeeping only; no geometric field of any surviving
object changes) and replaces them with the propagation of a freshly
generated initial beam.  Increments the rebuild counter. -/
def LightProjector.updateBeams (sweep : SweepFn) (p : LightProjector) :
    Except PyError LightProjector :=
  match p.parent with
  | none => Except.error PyError.attributeError
  | some mgr => do
    let initialBeam ← p.generateInitialBeam
    let childrenBeams ← initialBeam.propagateBeam sweep mgr
    return { p with childrenBeams := childrenBeams, rebuilds := p.rebuilds + 1 }

/-- Method `LightProjector.set_direction` (light_projector.py lines 68-74):
assigns the new direction unconditionally — there is no comparison with the
current value — and then, unless the projector is off or unparented, kills
and regenerates the beams via `update_beams`. -/
def LightProjector.setDirection (sweep : SweepFn) (p : LightProjector)
    (newDirection : Vec2) : Except PyError LightProjector :=
  let p1 := { p with direction := newDirection }
  if ¬p1.isOn ∨ p1.parent = none then Except.ok p1
  else p1.updateBeams sweep

/-- Method `LightProjector.set_origin` (light_projector.py lines 80-86):
same shape as `set_direction`, for the origin. -/
def LightProjector.setOrigin (sweep : SweepFn) (p : LightProjector)
    (newOrigin : Vec2) : Except PyError LightProjector :=
  let p1 := { p with origin := newOrigin }
  if ¬p1.isOn ∨ p1.parent = none then Except.ok p1
  else p1.updateBeams sweep

/-- Success test on a modelled Python result: `true` when no exception was
raised. -/
def exceptOk {α : Type} : Except PyError α → Bool
  | Except.ok _ => true
  | Except.error _ => false

/-- Concrete beam of the spec's filter-truncation scenario: full colour,
strength 100, truncated at the filter's near face x = 35. -/
def beamTruncated : LightBeam :=
  ⟨⟨14⟩, (true, true, true),
   mkLightEdge ⟨0, 7⟩ ⟨35, 7⟩ ⟨1, 0⟩ 100 35 1,
   mkLightEdge ⟨0, -7⟩ ⟨35, -7⟩ ⟨1, 0⟩ 100 35 0,
   ⟨0, 0⟩, ⟨1, 0⟩, 14, ⟨0, 1⟩, none⟩

/-- The same geometry with only the red channel present. -/
def beamRedOnly : LightBeam :=
  ⟨⟨14⟩, (true, false, false),
   mkLightEdge ⟨0, 7⟩ ⟨35, 7⟩ ⟨1, 0⟩ 100 35 1,
   mkLightEdge ⟨0, -7⟩ ⟨35, -7⟩ ⟨1, 0⟩ 100 35 0,
   ⟨0, 0⟩, ⟨1, 0⟩, 14, ⟨0, 1⟩, none⟩

/-- C1: on the spec's filter-truncation scenario (beam of strength 100
truncated at x = 35, white 30×100 filter at (50,0)), the claim expects one
child beam with strength and length 65; the code instead raises `TypeError`,
because `LightFilter.calculate_interaction` calls `LightEdge` with five
positional arguments while `LightEdge.__init__` requires six. -/
theorem filter_interaction_raises_type_error_on_spec_scenario :
    (do
      let filt ← mkLightFilter ⟨50, 0⟩ ⟨1, 0⟩ 30 100 (true, true, true)
      calculateInteractionFilter filt beamTruncated) =
      Except.error PyError.typeError := by
  with_unfolding_all decide

/-- C4: no recursive `propagate_beam` call with a reduced-strength beam ever
happens: the only implemented `calculate_interaction` (`LightFilter`'s)
raises `TypeError` whenever the component sets share a channel, and the base
class used by every other interactor raises `NotImplementedError`. -/
theorem interaction_raises_before_any_recursion :
    (do
      let filt ← mkLightFilter ⟨50, 0⟩ ⟨1, 0⟩ 30 100 (true, true, false)
      calculateInteractionFilter filt beamRedOnly) =
      Except.error PyError.typeError ∧
    (do
      let filt ← mkLightFilter ⟨50, 0⟩ ⟨1, 0⟩ 30 100 (true, true, false)
      calculateInteractionBase filt beamRedOnly) =
      Except.error PyError.notImplementedError := by
  constructor
  · with_unfolding_all decide
  · with_unfolding_all decide

/-- C6 counterexample: a zero-length second segment with coincident
endpoints (its defaulted direction normalises to the zero vector) drives
`_get_segment_intersection` into the `d2.x == 0` branch, where the division
by `d2.y` raises `ZeroDivisionError` — the primitive does not return a
defined result on every degenerate input. -/
theorem segment_intersection_zero_length_raises :
    getSegmentIntersection ⟨0, 0⟩ ⟨1, 0⟩ ⟨1, 1⟩ ⟨1, 1⟩ none none =
      Except.error PyError.zeroDivisionError := by
  with_unfolding_all decide

/-- C7: for a beam whose left edge is truncated at length 5 but whose right
edge runs to length 8, the code places the far end-cap using the LEFT
edge's length for both edges (light_beam.py line 464) and rejects (6, 0),
while the claim's own-length computation (`isPointInBeamClaimed`) accepts
it. -/
theorem is_point_in_beam_truncates_right_edge_by_left_length :
    (mkLightBeam ⟨14⟩ (true, true, true)
        (mkLightEdge ⟨0, 2⟩ ⟨5, 2⟩ ⟨1, 0⟩ 10 5 1)
        (mkLightEdge ⟨0, -2⟩ ⟨8, -2⟩ ⟨1, 0⟩ 10 8 0)
        ⟨0, 0⟩ ⟨1, 0⟩ none none).map
      (fun b => (b.isPointInBeam ⟨6, 0⟩, b.isPointInBeamClaimed ⟨6, 0⟩)) =
      Except.ok (false, true) := by
  with_unfolding_all decide

/-- C8: the spec's containment-boundary beam (direction (1,0), sources
(0,±5), edge directions (1,0), strength = length = 100) contains (50,0) and
rejects (50,6), (-1,0) and (150,0). -/
theorem containment_boundary_concrete_beam :
    (mkLightBeam ⟨14⟩ (true, true, true)
        (mkLightEdge ⟨0, 5⟩ ⟨100, 5⟩ ⟨1, 0⟩ 100 100 1)
        (mkLightEdge ⟨0, -5⟩ ⟨100, -5⟩ ⟨1, 0⟩ 100 100 0)
        ⟨0, 0⟩ ⟨1, 0⟩ none none).map
      (fun b => (b.isPointInBeam ⟨50, 0⟩, b.isPointInBeam ⟨50, 6⟩,
        b.isPointInBeam ⟨-1, 0⟩, b.isPointInBeam ⟨150, 0⟩)) =
      Except.ok (true, false, false, false) := by
  with_unfolding_all decide

/-- C9 counterexample: constructing an interactor over a two-vertex polygon
succeeds (returning the stored bounds and the two cyclically computed
normals); no validation error is raised. -/
theorem interactor_with_two_vertices_constructs :
    mkLightInteractor ⟨0, 0⟩ ⟨1, 0⟩ [⟨0, 0⟩, ⟨1, 0⟩] (true, true, true) =
      Except.ok ⟨⟨0, 0⟩, ⟨1, 0⟩, [⟨0, 0⟩, ⟨1, 0⟩],
        [⟨0, 1⟩, ⟨0, -1⟩], (true, true, true)⟩ := by
  with_unfolding_all decide

/-- C9 amended: `LightInteractor.__init__` performs no validation at all —
for every polygon, with any number of vertices, construction succeeds,
stores the bounds unchanged and computes exactly one normal per vertex. -/
theorem interactor_construction_never_fails (position direction : Vec2)
    (bounds : List Vec2) (components : Bool × Bool × Bool) :
    (mkLightInteractor position direction bounds components).map
      (fun it => (it.bounds, it.normals.length)) =
      Except.ok (bounds, bounds.length) := by
  simp [mkLightInteractor, Except.map]

/-- C2: every beam a filter interaction successfully returns carries the
component-wise AND of the beam's and the filter's channels, and a filter
sharing no channel with the beam returns the empty tuple of children. -/
theorem filter_interaction_colour_law (it : LightInteractor)
    (beam : LightBeam) (bs : List LightBeam)
    (h : calculateInteractionFilter it beam = Except.ok bs) :
    bs.all (fun c => decide (c.components = componentMix it beam)) = true ∧
    (componentMix it beam = (false, false, false) → bs = []) := by
  have hch : calculateInteractionFilter it beam =
      (if ¬((componentMix it beam).1 || (componentMix it beam).2.1 ||
          (componentMix it beam).2.2) = true
       then Except.ok [] else Except.error PyError.typeError) := rfl
  rw [hch] at h
  split at h
  · injection h with h2
    subst h2
    exact ⟨rfl, fun _ => rfl⟩
  · exact Except.noConfusion h

/-- Filter passing only green and blue, for exercising the absorbed
(channel-disjoint) branch; fields as `mkLightFilter ⟨50,0⟩ ⟨1,0⟩ 30 100`
computes them. -/
def filterGreenBlue : LightInteractor :=
  ⟨⟨50, 0⟩, ⟨1, 0⟩, [⟨-15, -50⟩, ⟨-15, 50⟩, ⟨15, 50⟩, ⟨15, -50⟩],
   [⟨-1, 0⟩, ⟨0, 1⟩, ⟨1, 0⟩, ⟨0, -1⟩], (false, true, true)⟩

theorem filter_interaction_colour_law_witness :
    List.all ([] : List LightBeam)
      (fun c => decide (c.components = componentMix filterGreenBlue beamRedOnly)) = true ∧
    ([] : List LightBeam) = [] :=
  ⟨(filter_interaction_colour_law filterGreenBlue beamRedOnly []
      (by with_unfolding_all decide)).1,
   (filter_interaction_colour_law filterGreenBlue beamRedOnly []
      (by with_unfolding_all decide)).2 (by decide)⟩

/-- C3: when the manager reports no intersecting edges — in particular with
zero registered interactors — `propagate_beam` returns exactly the input
beam, singly, for EVERY sweep continuation: the splitting sweep and the
recursion are never entered. -/
theorem propagate_beam_fast_path_returns_input (sweep : SweepFn)
    (b : LightBeam) (mgr : LightInteractorManager)
    (h : mgr.calculateIntersectingEdges b = Except.ok []) :
    b.propagateBeam sweep mgr = Except.ok [b] ∧
    (LightInteractorManager.mk [] []).calculateIntersectingEdges b =
      Except.ok [] := by
  constructor
  · unfold LightBeam.propagateBeam
    rw [h]
    rfl
  · rfl

theorem propagate_beam_fast_path_returns_input_witness :
    LightBeam.propagateBeam
        (fun _ _ _ => Except.error PyError.notImplementedError)
        beamTruncated (LightInteractorManager.mk [] []) =
      Except.ok [beamTruncated] ∧
    (LightInteractorManager.mk [] []).calculateIntersectingEdges beamTruncated =
      Except.ok [] :=
  propagate_beam_fast_path_returns_input
    (fun _ _ _ => Except.error PyError.notImplementedError)
    beamTruncated (LightInteractorManager.mk [] []) (by rfl)

/-- Projector that is on and parented (to a scene with an empty interactor
manager), with no beams built yet. -/
def projectorOn : LightProjector :=
  ⟨⟨14⟩, (true, true, true), 10, ⟨0, 0⟩, ⟨1, 0⟩, [],
   some (LightInteractorManager.mk [] []), true, 0⟩

/-- C5 counterexample: on an on, parented projector, `set_direction` called
with the CURRENT direction (and `set_origin` with the current origin) still
kills and regenerates the beam subtree: the rebuild counter increments from
0 to 1 and a fresh beam is allocated into `children_beams` — there is no
equality fast path. -/
theorem set_direction_equal_value_still_rebuilds :
    (LightProjector.setDirection
        (fun _ _ _ => Except.error PyError.notImplementedError)
        projectorOn projectorOn.direction).map
      (fun q => (q.rebuilds, q.childrenBeams.length, q.direction)) =
      Except.ok (1, 1, projectorOn.direction) ∧
    (LightProjector.setOrigin
        (fun _ _ _ => Except.error PyError.notImplementedError)
        projectorOn projectorOn.origin).map (fun q => q.rebuilds) =
      Except.ok 1 ∧
    projectorOn.rebuilds = 0 := by
  refine ⟨?_, ?_, rfl⟩ <;> with_unfolding_all decide

/-- C5 amended: `set_direction` and `set_origin` assign unconditionally
and, whenever the projector is on and parented, always take the
kill-and-regenerate path (`update_beams`) — even when the new value equals
the old; only an off or unparented projector skips the rebuild. -/
theorem setters_on_parented_always_rebuild (sweep : SweepFn)
    (p : LightProjector) (d o : Vec2) (h1 : p.isOn = true)
    (h2 : p.parent ≠ none) :
    LightProjector.setDirection sweep p d =
      LightProjector.updateBeams sweep { p with direction := d } ∧
    LightProjector.setOrigin sweep p o =
      LightProjector.updateBeams sweep { p with origin := o } := by
  unfold LightProjector.setDirection LightProjector.setOrigin
  constructor
  · rw [if_neg]
    simp [h1, h2]
  · rw [if_neg]
    simp [h1, h2]

theorem setters_on_parented_always_rebuild_witness :
    LightProjector.setDirection
        (fun _ _ _ => Except.error PyError.notImplementedError)
        projectorOn projectorOn.direction =
      LightProjector.updateBeams
        (fun _ _ _ => Except.error PyError.notImplementedError)
        { projectorOn with direction := projectorOn.direction } ∧
    LightProjector.setOrigin
        (fun _ _ _ => Except.error PyError.notImplementedError)
        projectorOn ⟨3, 4⟩ =
      LightProjector.updateBeams
        (fun _ _ _ => Except.error PyError.notImplementedError)
        { projectorOn with origin := ⟨3, 4⟩ } :=
  setters_on_parented_always_rebuild
    (fun _ _ _ => Except.error PyError.notImplementedError)
    projectorOn projectorOn.direction ⟨3, 4⟩ rfl (by decide)

/-- Range checks of the segment-intersection tail contain no division: they
always produce a defined result. -/
theorem segmentIntersectionTail_ok (s1 e1 s2 e2 d1 : Vec2) (t1 t2 : ℚ) :
    exceptOk (segmentIntersectionTail s1 e1 s2 e2 d1 t1 t2) = true := by
  have hch : segmentIntersectionTail s1 e1 s2 e2 d1 t1 t2 =
      (if t1 < 0 ∨ t2 < 0 then Except.ok none
       else if t1 ^ 2 > (e1 - s1).dot (e1 - s1) ∨
           t2 ^ 2 > (e2 - s2).dot (e2 - s2) then Except.ok none
       else Except.ok (some (s1 + d1.smul t1))) := rfl
  rw [hch]
  split
  · rfl
  · split <;> rfl

/-- For unit directions, once the parallel test has failed, the two guarded
denominators of the `d2.x == 0` branch are provably nonzero. -/
theorem unit_nonparallel_facts (d1 d2 : Vec2) (h1 : d1.magSq = 1)
    (h2 : d2.magSq = 1) (hdot : ¬(1 ≤ d1.dot d2 ∨ d1.dot d2 ≤ -1))
    (hx : d2.x = 0) : d1.x ≠ 0 ∧ d2.y ≠ 0 := by
  constructor
  · intro hx1
    have hd1 : d1.y * d1.y = 1 := by
      have hm := h1
      unfold Vec2.magSq at hm
      rw [hx1] at hm
      linarith
    have hd2 : d2.y * d2.y = 1 := by
      have hm := h2
      unfold Vec2.magSq at hm
      rw [hx] at hm
      linarith
    have hde : d1.dot d2 = d1.y * d2.y := by
      unfold Vec2.dot
      rw [hx1, hx]
      ring
    have hdd : (d1.dot d2) * (d1.dot d2) = 1 := by
      rw [hde]
      calc d1.y * d2.y * (d1.y * d2.y) = d1.y * d1.y * (d2.y * d2.y) := by ring
        _ = 1 := by rw [hd1, hd2]; ring
    rcases mul_self_eq_one_iff.mp hdd with he | he
    · exact hdot (Or.inl (le_of_eq he.symm))
    · exact hdot (Or.inr (le_of_eq he))
  · intro hy
    have hm : d2.magSq = 0 := by
      unfold Vec2.magSq
      rw [hx, hy]
      ring
    rw [h2] at hm
    exact one_ne_zero hm

/-- C6 amended: called with explicit unit direction vectors — the form in
which the engine passes normalised directions — both primitives return a
defined result (a point or `none`) on every input and never raise; a raise
requires a degenerate non-unit direction, such as the zero vector a
zero-length segment's default normalisation produces (see the
counterexample). -/
theorem intersection_primitives_unit_directions_never_raise
    (o1 o2 s1 e1 s2 e2 d1 d2 : Vec2) (h1 : d1.magSq = 1)
    (h2 : d2.magSq = 1) :
    exceptOk (getIntersection o1 d1 o2 d2) = true ∧
    exceptOk (getSegmentIntersection s1 e1 s2 e2 (some d1) (some d2)) = true := by
  constructor
  · by_cases hdot : (1 ≤ d1.dot d2 ∨ d1.dot d2 ≤ -1)
    · simp [getIntersection, hdot, exceptOk]
    · by_cases hx : d2.x = 0
      · have hfacts := unit_nonparallel_facts d1 d2 h1 h2 hdot hx
        simp [getIntersection, hdot, hx, hfacts.1, exceptOk]
      · by_cases htb : d1.x * (d2.y / d2.x) - d1.y = 0
        · simp [getIntersection, hdot, hx, htb, exceptOk]
        · simp [getIntersection, hdot, hx, htb, exceptOk]
  · by_cases hdot : (1 ≤ d1.dot d2 ∨ d1.dot d2 ≤ -1)
    · simp [getSegmentIntersection, hdot, exceptOk]
    · by_cases hx : d2.x = 0
      · have hfacts := unit_nonparallel_facts d1 d2 h1 h2 hdot hx
        simp [getSegmentIntersection, hdot, hx, hfacts.1, hfacts.2,
          segmentIntersectionTail_ok]
      · by_cases htb : d1.x * (d2.y / d2.x) - d1.y = 0
        · simp [getSegmentIntersection, hdot, hx, htb, exceptOk]
        · simp [getSegmentIntersection, hdot, hx, htb,
            segmentIntersectionTail_ok]

theorem intersection_primitives_unit_directions_never_raise_witness :
    Vec2.magSq ⟨0, 1⟩ = 1 ∧ Vec2.magSq ⟨1, 0⟩ = 1 ∧
    exceptOk (getIntersection ⟨0, 0⟩ ⟨0, 1⟩ ⟨2, 3⟩ ⟨1, 0⟩) = true ∧
    exceptOk (getSegmentIntersection ⟨0, 0⟩ ⟨0, 2⟩ ⟨-1, 1⟩ ⟨3, 1⟩
      (some ⟨0, 1⟩) (some ⟨1, 0⟩)) = true :=
  ⟨by with_unfolding_all decide, by with_unfolding_all decide,
   (intersection_primitives_unit_directions_never_raise ⟨0, 0⟩ ⟨2, 3⟩ ⟨0, 0⟩
      ⟨0, 2⟩ ⟨-1, 1⟩ ⟨3, 1⟩ ⟨0, 1⟩ ⟨1, 0⟩ (by with_unfolding_all decide)
      (by with_unfolding_all decide)).1,
   (intersection_primitives_unit_directions_never_raise ⟨0, 0⟩ ⟨2, 3⟩ ⟨0, 0⟩
      ⟨0, 2⟩ ⟨-1, 1⟩ ⟨3, 1⟩ ⟨0, 1⟩ ⟨1, 0⟩ (by with_unfolding_all decide)
      (by with_unfolding_all decide)).2⟩

/-- Appending an absent element preserves distinctness of the children. -/
theorem addChild_nodup (cs : List Nat) (c : Nat) (h : cs.Nodup) :
    (addChild cs c).Nodup := by
  unfold addChild
  split
  · exact h
  · rename_i hmem
    refine List.Nodup.append h (List.nodup_singleton c) ?_
    intro a ha hb
    rw [List.mem_singleton] at hb
    exact hmem (hb ▸ ha)

/-- Folding `add_child` over a batch preserves distinctness. -/
theorem extendChildren_nodup (l cs : List Nat) (h : cs.Nodup) :
    (extendChildren cs l).Nodup := by
  induction l generalizing cs with
  | nil => exact h
  | cons a t ih => exact ih (addChild cs a) (addChild_nodup cs a h)

/-- Any sequence of children mutations preserves distinctness. -/
theorem applyChildOps_nodup (ops : List ChildOp) (cs : List Nat)
    (h : cs.Nodup) : (applyChildOps ops cs).Nodup := by
  induction ops generalizing cs with
  | nil => exact h
  | cons op t ih =>
    cases op with
    | add c => exact ih (addChild cs c) (addChild_nodup cs c h)
    | extend l => exact ih (extendChildren cs l) (extendChildren_nodup l cs h)

/-- C10: `add_child` with an already-recorded child leaves the children
tuple unchanged, and consequently any sequence of `add_child` and
`extend_children` calls starting from the empty tuple never records the
same beam twice. -/
theorem add_child_idempotent_and_nodup (cs : List Nat) (c : Nat)
    (h : c ∈ cs) (ops : List ChildOp) :
    addChild cs c = cs ∧ (applyChildOps ops []).Nodup :=
  ⟨by simp [addChild, h], applyChildOps_nodup ops [] List.nodup_nil⟩

theorem add_child_idempotent_and_nodup_witness :
    addChild [1, 2] 2 = [1, 2] ∧
    (applyChildOps [ChildOp.add 1, ChildOp.extend [1, 3], ChildOp.add 3]
      []).Nodup :=
  add_child_idempotent_and_nodup [1, 2] 2 (by decide)
    [ChildOp.add 1, ChildOp.extend [1, 3], ChildOp.add 3]

end LightEngine
